import Mathlib

/-!
Verification development for the spaceapp impact model.

The numeric parts of `src/lib/meteor.ts` and of the geometry helpers of
`src/components/map/MapboxMap.tsx` are embedded shallowly over the real
numbers: every JavaScript `number` becomes a real, `Math.pow` becomes
`Real.rpow`, `Math.sin`/`Math.cos`/`Math.asin`/`Math.atan2` become the
corresponding real functions, and `Math.min`/`Math.max` become `min`/`max`.
Over the reals every value is finite, so the JavaScript `isFinite` test is
identically true; the `safe` sanitizer therefore reduces to the
positive-or-zero gate.
-/

noncomputable section

namespace Spaceapp

open Real

/-- Embedding of `clamp(n, min, max) = Math.min(max, Math.max(min, n))` from meteor.ts. -/
def clamp (n lo hi : ℝ) : ℝ := min hi (max lo n)

/-- Embedding of `estimateOzoneDepletion` from meteor.ts: returns 0 for non-positive
(over ℝ, the non-finite test of the source is vacuous) yield, otherwise
`clamp(5 * energyMT ** 0.25, 0, 50)`. -/
def estimateOzoneDepletion (energyMT : ℝ) : ℝ :=
  if energyMT ≤ 0 then 0
  else clamp (5 * energyMT ^ (0.25 : ℝ)) 0 50

/-- Embedding of `calculateCraterDiameter` from meteor.ts (Holsapple/Schmidt-style
scaling law); the source's default arguments `targetDensity = 2700`,
`gravity = 9.81` are passed explicitly at the call site. Returns meters. -/
def calculateCraterDiameter (diameter density velocity angle targetDensity gravity : ℝ) : ℝ :=
  let theta := clamp angle 0.1 90 * π / 180
  let mu : ℝ := 0.22
  let k1 : ℝ := 1.161
  let r := max 0 (diameter / 2)
  let transientCrater :=
    k1 * gravity ^ (-mu) * (density / targetDensity) ^ ((1 : ℝ) / 3) *
      r ^ (1 - mu) * velocity ^ (2 * mu) * Real.sin theta ^ ((1 : ℝ) / 3)
  let correctionFactor : ℝ := 1.3
  let finalCrater := transientCrater * correctionFactor
  max 0 finalCrater

/-- Embedding of `ImpactInputs` from meteor.ts: diameter (m), density (kg/m³),
velocity (m/s), angle (degrees from horizontal). -/
structure ImpactInputs where
  diameter : ℝ
  density : ℝ
  velocity : ℝ
  angle : ℝ

/-- Embedding of `ImpactResults` from meteor.ts. -/
structure ImpactResults where
  mass : ℝ
  kineticEnergy : ℝ
  energyTNT : ℝ
  volcanoEquivalent : ℝ
  craterDiameter : ℝ
  severeDamageRadius : ℝ
  thirdDegreeBurnRadius : ℝ
  secondDegreeBurnRadius : ℝ
  noiseDamageRadius : ℝ
  ozoneDepletionPercent : ℝ
  acidRainSeverity : String
  climateImpact : String

/-- Local `radius = Math.max(0, diameter / 2)` inside `calculateImpact`. -/
def radiusOf (i : ImpactInputs) : ℝ := max 0 (i.diameter / 2)

/-- Local `mass = (4/3) * Math.PI * radius**3 * density` (kg). -/
def massOf (i : ImpactInputs) : ℝ :=
  4 / 3 * π * radiusOf i ^ (3 : ℝ) * i.density

/-- Local `kineticEnergy = 0.5 * mass * velocity**2` (J). -/
def kineticEnergyOf (i : ImpactInputs) : ℝ :=
  0.5 * massOf i * i.velocity ^ (2 : ℝ)

/-- Local `energyTNT = kineticEnergy / 4.184e9` (tons TNT). -/
def energyTNTOf (i : ImpactInputs) : ℝ := kineticEnergyOf i / 4.184e9

/-- Local `E_tons = Math.max(0, energyTNT)`. -/
def eTonsOf (i : ImpactInputs) : ℝ := max 0 (energyTNTOf i)

/-- Local `E_kt = E_tons / 1e3` (kilotons). -/
def eKtOf (i : ImpactInputs) : ℝ := eTonsOf i / 1e3

/-- Local `E_Mt = E_tons / 1e6` (megatons). -/
def eMtOf (i : ImpactInputs) : ℝ := eTonsOf i / 1e6

/-- Local `volcanoEquivalent = E_Mt / 200`. -/
def volcanoEquivalentOf (i : ImpactInputs) : ℝ := eMtOf i / 200

/-- Local `craterDiameter = calculateCraterDiameter(...) / 1000` (km),
with the source's default target density and gravity. -/
def craterDiameterOf (i : ImpactInputs) : ℝ :=
  calculateCraterDiameter i.diameter i.density i.velocity i.angle 2700 9.81 / 1000

/-- Local `severeDamageRadius = 4.5 * E_Mt**(1/3)` (km). -/
def severeDamageRadiusOf (i : ImpactInputs) : ℝ :=
  4.5 * eMtOf i ^ ((1 : ℝ) / 3)

/-- Local `thirdDegreeBurnRadius = 8.0 * E_Mt**0.40` (km). -/
def thirdDegreeBurnRadiusOf (i : ImpactInputs) : ℝ :=
  8.0 * eMtOf i ^ (0.40 : ℝ)

/-- The raw `secondDegreeBurnRadius = 13.0 * E_Mt**0.40` (km), before the
inversion guard. -/
def rawSecondDegreeBurnRadiusOf (i : ImpactInputs) : ℝ :=
  13.0 * eMtOf i ^ (0.40 : ℝ)

/-- The guard of meteor.ts lines 202-204: if the second-degree radius is
below the third-degree radius, replace it by `thirdDegree * 1.1`. -/
def applyBurnRadiusGuard (second third : ℝ) : ℝ :=
  if second < third then third * 1.1 else second

/-- The `secondDegreeBurnRadius` local after the guard has run. -/
def secondDegreeBurnRadiusOf (i : ImpactInputs) : ℝ :=
  applyBurnRadiusGuard (rawSecondDegreeBurnRadiusOf i) (thirdDegreeBurnRadiusOf i)

/-- Local `noiseDamageRadius = 15.0 * E_kt**0.25` (km) — kilotons, not megatons. -/
def noiseDamageRadiusOf (i : ImpactInputs) : ℝ :=
  15.0 * eKtOf i ^ (0.25 : ℝ)

/-- The acid-rain classifier of meteor.ts lines 212-217 (thresholds on raw
kinetic energy in joules). -/
def acidRainSeverityOf (i : ImpactInputs) : String :=
  if 1e18 ≤ kineticEnergyOf i then "Severe acid rain likely (global)"
  else if 1e16 ≤ kineticEnergyOf i then "Regional acid rain possible"
  else "Localized acid rain possible"

/-- The climate classifier of meteor.ts lines 220-227 (thresholds on E_Mt). -/
def climateImpactOf (i : ImpactInputs) : String :=
  if eMtOf i < 1 then "Negligible global climate impact"
  else if eMtOf i < 1000 then "Regional cooling ('mini impact winter')"
  else "Global impact winter (years of cooling) followed by greenhouse warming"

/-- Embedding of `safe(x) = isFinite(x) && x > 0 ? x : 0`; over ℝ the finiteness test is
identically true. -/
def safe (x : ℝ) : ℝ := if 0 < x then x else 0

/-- Embedding of `calculateImpact` from meteor.ts, assembled from the intermediates above. -/
def calculateImpact (i : ImpactInputs) : ImpactResults where
  mass := safe (massOf i)
  kineticEnergy := safe (kineticEnergyOf i)
  energyTNT := safe (eTonsOf i)
  volcanoEquivalent := safe (volcanoEquivalentOf i)
  craterDiameter := safe (craterDiameterOf i)
  severeDamageRadius := safe (severeDamageRadiusOf i)
  thirdDegreeBurnRadius := safe (thirdDegreeBurnRadiusOf i)
  secondDegreeBurnRadius := safe (secondDegreeBurnRadiusOf i)
  noiseDamageRadius := safe (noiseDamageRadiusOf i)
  ozoneDepletionPercent := clamp (estimateOzoneDepletion (eMtOf i)) 0 100
  acidRainSeverity := acidRainSeverityOf i
  climateImpact := climateImpactOf i

/-! ### Geometry helpers of MapboxMap.tsx -/

/-- Embedding of `MapLocation` from MapboxMap.tsx. -/
structure MapLocation where
  lng : ℝ
  lat : ℝ

/-- Embedding of `ImpactRing` from MapboxMap.tsx. -/
structure ImpactRing where
  id : String
  radiusKm : ℝ
  color : Option String
  label : Option String

/-- Spherical Earth radius used by `createCirclePolygon`. -/
def EARTH_RADIUS_KM : ℝ := 6371

/-- Embedding of `toRadians(degrees)` from MapboxMap.tsx. -/
def toRadians (degrees : ℝ) : ℝ := degrees * π / 180

/-- Embedding of `toDegrees(radians)` from MapboxMap.tsx. -/
def toDegrees (radians : ℝ) : ℝ := radians * 180 / π

/-- Embedding of `Math.atan2(y, x)`: the standard two-argument arctangent, with the
JavaScript convention `atan2(0, 0) = 0`. -/
def atan2 (y x : ℝ) : ℝ :=
  if 0 < x then Real.arctan (y / x)
  else if x < 0 then
    (if 0 ≤ y then Real.arctan (y / x) + π else Real.arctan (y / x) - π)
  else if 0 < y then π / 2
  else if y < 0 then -(π / 2)
  else 0

/-- The body of the `for` loop of `createCirclePolygon`: the destination
point at step `i` out of `steps`, emitted as a `(lng, lat)` pair in degrees. -/
def circleVertex (center : MapLocation) (radiusKm : ℝ) (steps : ℕ) (i : ℕ) : ℝ × ℝ :=
  let radiusRad := max 0 radiusKm / EARTH_RADIUS_KM
  let latRad := toRadians center.lat
  let lngRad := toRadians center.lng
  let bearing := (i : ℝ) / (steps : ℝ) * 2 * π
  let sinLat :=
    Real.sin latRad * Real.cos radiusRad +
      Real.cos latRad * Real.sin radiusRad * Real.cos bearing
  let lat := Real.arcsin (min 1 (max (-1) sinLat))
  let lng :=
    lngRad +
      atan2 (Real.sin bearing * Real.sin radiusRad * Real.cos latRad)
        (Real.cos radiusRad - Real.sin latRad * Real.sin lat)
  (toDegrees lng, toDegrees lat)

/-- Embedding of `createCirclePolygon(center, radiusKm, steps)` from MapboxMap.tsx:
the list of `(lng, lat)` vertices for `i = 0 .. steps` inclusive. -/
def createCirclePolygon (center : MapLocation) (radiusKm : ℝ) (steps : ℕ) : List (ℝ × ℝ) :=
  (List.range (steps + 1)).map (circleVertex center radiusKm steps)

/-- One GeoJSON feature of the ring collection: the circle polygon plus the
ring's metadata properties, in the pairing of MapboxMap.tsx lines 136-146. -/
structure GeoFeature where
  geometry : List (ℝ × ℝ)
  id : String
  color : Option String
  label : Option String
  radiusKm : ℝ

/-- The descending-radius order used by `buildImpactRingCollection`'s
comparator `(a, b) => b.radiusKm - a.radiusKm`. -/
def ringGE (a b : ImpactRing) : Prop := b.radiusKm ≤ a.radiusKm

instance : DecidableRel ringGE := fun a b =>
  inferInstanceAs (Decidable (b.radiusKm ≤ a.radiusKm))

instance : IsTotal ImpactRing ringGE :=
  ⟨fun a b => le_total b.radiusKm a.radiusKm⟩

instance : IsTrans ImpactRing ringGE :=
  ⟨fun _ _ _ h1 h2 => le_trans h2 h1⟩

/-- Embedding of `[...rings].sort((a, b) => b.radiusKm - a.radiusKm)`: a stable sort by
descending radius, modelled by insertion sort on `ringGE`. -/
def ringsSortedDesc (rings : List ImpactRing) : List ImpactRing :=
  List.insertionSort ringGE rings

/-- Embedding of `buildImpactRingCollection(center, rings)` from MapboxMap.tsx: sort the
rings descending by radius, then emit one feature per ring with the ring's
metadata passed through. -/
def buildImpactRingCollection (center : MapLocation) (rings : List ImpactRing) :
    List GeoFeature :=
  (ringsSortedDesc rings).map fun ring =>
    { geometry := createCirclePolygon center ring.radiusKm 128
      id := ring.id
      color := ring.color
      label := ring.label
      radiusKm := ring.radiusKm }

/-! ### Basic lemmas about the sanitizer and the yield chain -/

lemma safe_eq_max (x : ℝ) : safe x = max x 0 := by
  unfold safe
  split
  · next h => exact (max_eq_left h.le).symm
  · next h => exact (max_eq_right (not_lt.mp h)).symm

lemma safe_nonneg (x : ℝ) : 0 ≤ safe x := by
  rw [safe_eq_max]; exact le_max_right x 0

lemma safe_of_pos {x : ℝ} (h : 0 < x) : safe x = x := if_pos h

lemma safe_of_nonpos {x : ℝ} (h : x ≤ 0) : safe x = 0 := if_neg (not_lt.mpr h)

lemma safe_of_nonneg {x : ℝ} (h : 0 ≤ x) : safe x = x := by
  rw [safe_eq_max]; exact max_eq_left h

lemma safe_le_safe {a b : ℝ} (h : a ≤ b) : safe a ≤ safe b := by
  rw [safe_eq_max, safe_eq_max]; exact max_le_max h le_rfl

lemma eTonsOf_nonneg (i : ImpactInputs) : 0 ≤ eTonsOf i := le_max_left 0 _

lemma eKtOf_nonneg (i : ImpactInputs) : 0 ≤ eKtOf i :=
  div_nonneg (eTonsOf_nonneg i) (by norm_num)

lemma eMtOf_nonneg (i : ImpactInputs) : 0 ≤ eMtOf i :=
  div_nonneg (eTonsOf_nonneg i) (by norm_num)

lemma thirdDegreeBurnRadiusOf_nonneg (i : ImpactInputs) :
    0 ≤ thirdDegreeBurnRadiusOf i :=
  mul_nonneg (by norm_num) (Real.rpow_nonneg (eMtOf_nonneg i) _)

lemma third_le_rawSecond (i : ImpactInputs) :
    thirdDegreeBurnRadiusOf i ≤ rawSecondDegreeBurnRadiusOf i :=
  mul_le_mul_of_nonneg_right (by norm_num) (Real.rpow_nonneg (eMtOf_nonneg i) _)

lemma third_le_second (i : ImpactInputs) :
    thirdDegreeBurnRadiusOf i ≤ secondDegreeBurnRadiusOf i := by
  unfold secondDegreeBurnRadiusOf applyBurnRadiusGuard
  split
  · linarith [thirdDegreeBurnRadiusOf_nonneg i]
  · exact third_le_rawSecond i

/-! ### Claims -/

/-- C1: `calculateImpact` is total and sanitizing: every numeric field of
the result is non-negative (over ℝ, finiteness is automatic), and any
non-positive intermediate value is replaced by 0 in the output. -/
theorem claim_C1 (i : ImpactInputs) :
    (0 ≤ (calculateImpact i).mass ∧ 0 ≤ (calculateImpact i).kineticEnergy ∧
      0 ≤ (calculateImpact i).energyTNT ∧ 0 ≤ (calculateImpact i).volcanoEquivalent ∧
      0 ≤ (calculateImpact i).craterDiameter ∧ 0 ≤ (calculateImpact i).severeDamageRadius ∧
      0 ≤ (calculateImpact i).thirdDegreeBurnRadius ∧
      0 ≤ (calculateImpact i).secondDegreeBurnRadius ∧
      0 ≤ (calculateImpact i).noiseDamageRadius ∧
      0 ≤ (calculateImpact i).ozoneDepletionPercent) ∧
    ((massOf i ≤ 0 → (calculateImpact i).mass = 0) ∧
      (kineticEnergyOf i ≤ 0 → (calculateImpact i).kineticEnergy = 0) ∧
      (eTonsOf i ≤ 0 → (calculateImpact i).energyTNT = 0) ∧
      (volcanoEquivalentOf i ≤ 0 → (calculateImpact i).volcanoEquivalent = 0) ∧
      (craterDiameterOf i ≤ 0 → (calculateImpact i).craterDiameter = 0) ∧
      (severeDamageRadiusOf i ≤ 0 → (calculateImpact i).severeDamageRadius = 0) ∧
      (thirdDegreeBurnRadiusOf i ≤ 0 → (calculateImpact i).thirdDegreeBurnRadius = 0) ∧
      (secondDegreeBurnRadiusOf i ≤ 0 → (calculateImpact i).secondDegreeBurnRadius = 0) ∧
      (noiseDamageRadiusOf i ≤ 0 → (calculateImpact i).noiseDamageRadius = 0) ∧
      (estimateOzoneDepletion (eMtOf i) ≤ 0 →
        (calculateImpact i).ozoneDepletionPercent = 0)) := by
  constructor
  · refine ⟨safe_nonneg _, safe_nonneg _, safe_nonneg _, safe_nonneg _, safe_nonneg _,
      safe_nonneg _, safe_nonneg _, safe_nonneg _, safe_nonneg _, ?_⟩
    show 0 ≤ clamp (estimateOzoneDepletion (eMtOf i)) 0 100
    exact le_min (by norm_num) (le_max_left 0 _)
  · refine ⟨fun h => safe_of_nonpos h, fun h => safe_of_nonpos h, fun h => safe_of_nonpos h,
      fun h => safe_of_nonpos h, fun h => safe_of_nonpos h, fun h => safe_of_nonpos h,
      fun h => safe_of_nonpos h, fun h => safe_of_nonpos h, fun h => safe_of_nonpos h, ?_⟩
    intro h
    show clamp (estimateOzoneDepletion (eMtOf i)) 0 100 = 0
    unfold clamp
    rw [max_eq_left h, min_eq_right (by norm_num)]

/-- Witness for C1 at the degenerate input
`diameter = 0, density = 0, velocity = 0, angle = 45`. -/
theorem claim_C1_witness :
    (calculateImpact ⟨0, 0, 0, 45⟩).mass = 0 ∧
      (calculateImpact ⟨0, 0, 0, 45⟩).kineticEnergy = 0 ∧
      (calculateImpact ⟨0, 0, 0, 45⟩).energyTNT = 0 ∧
      (calculateImpact ⟨0, 0, 0, 45⟩).volcanoEquivalent = 0 ∧
      (calculateImpact ⟨0, 0, 0, 45⟩).craterDiameter = 0 ∧
      (calculateImpact ⟨0, 0, 0, 45⟩).severeDamageRadius = 0 ∧
      (calculateImpact ⟨0, 0, 0, 45⟩).thirdDegreeBurnRadius = 0 ∧
      (calculateImpact ⟨0, 0, 0, 45⟩).secondDegreeBurnRadius = 0 ∧
      (calculateImpact ⟨0, 0, 0, 45⟩).noiseDamageRadius = 0 ∧
      (calculateImpact ⟨0, 0, 0, 45⟩).ozoneDepletionPercent = 0 := by
  have h13 : (0 : ℝ) ^ ((1 : ℝ) / 3) = 0 := Real.zero_rpow (by norm_num)
  have h40 : (0 : ℝ) ^ (0.40 : ℝ) = 0 := Real.zero_rpow (by norm_num)
  have h25 : (0 : ℝ) ^ (0.25 : ℝ) = 0 := Real.zero_rpow (by norm_num)
  have hm : massOf ⟨0, 0, 0, 45⟩ = 0 := by simp [massOf]
  have hk : kineticEnergyOf ⟨0, 0, 0, 45⟩ = 0 := by simp [kineticEnergyOf, hm]
  have ht : eTonsOf ⟨0, 0, 0, 45⟩ = 0 := by simp [eTonsOf, energyTNTOf, hk]
  have hkt : eKtOf ⟨0, 0, 0, 45⟩ = 0 := by simp [eKtOf, ht]
  have hmt : eMtOf ⟨0, 0, 0, 45⟩ = 0 := by simp [eMtOf, ht]
  have hv : volcanoEquivalentOf ⟨0, 0, 0, 45⟩ = 0 := by simp [volcanoEquivalentOf, hmt]
  have hc : craterDiameterOf ⟨0, 0, 0, 45⟩ = 0 := by
    simp [craterDiameterOf, calculateCraterDiameter, h13]
  have hs : severeDamageRadiusOf ⟨0, 0, 0, 45⟩ = 0 := by
    simp [severeDamageRadiusOf, hmt, h13]
  have h3 : thirdDegreeBurnRadiusOf ⟨0, 0, 0, 45⟩ = 0 := by
    simp [thirdDegreeBurnRadiusOf, hmt, h40]
  have hr2 : rawSecondDegreeBurnRadiusOf ⟨0, 0, 0, 45⟩ = 0 := by
    simp [rawSecondDegreeBurnRadiusOf, hmt, h40]
  have h2 : secondDegreeBurnRadiusOf ⟨0, 0, 0, 45⟩ = 0 := by
    simp [secondDegreeBurnRadiusOf, applyBurnRadiusGuard, hr2, h3]
  have hn : noiseDamageRadiusOf ⟨0, 0, 0, 45⟩ = 0 := by
    simp [noiseDamageRadiusOf, hkt, h25]
  have ho : estimateOzoneDepletion (eMtOf ⟨0, 0, 0, 45⟩) = 0 := by
    simp [estimateOzoneDepletion, hmt]
  exact ⟨(claim_C1 _).2.1 hm.le, (claim_C1 _).2.2.1 hk.le, (claim_C1 _).2.2.2.1 ht.le,
    (claim_C1 _).2.2.2.2.1 hv.le, (claim_C1 _).2.2.2.2.2.1 hc.le,
    (claim_C1 _).2.2.2.2.2.2.1 hs.le, (claim_C1 _).2.2.2.2.2.2.2.1 h3.le,
    (claim_C1 _).2.2.2.2.2.2.2.2.1 h2.le, (claim_C1 _).2.2.2.2.2.2.2.2.2.1 hn.le,
    (claim_C1 _).2.2.2.2.2.2.2.2.2.2 ho.le⟩

/-- C2: the returned second-degree burn radius is always at least the
third-degree radius, and whenever the raw second-degree value is below the
third-degree value, the guard replaces it by 1.1 times the third-degree
radius. -/
theorem claim_C2 :
    (∀ i : ImpactInputs,
      (calculateImpact i).thirdDegreeBurnRadius ≤ (calculateImpact i).secondDegreeBurnRadius) ∧
    (∀ second third : ℝ, second < third → applyBurnRadiusGuard second third = third * 1.1) := by
  constructor
  · intro i
    exact safe_le_safe (third_le_second i)
  · intro s t h
    unfold applyBurnRadiusGuard
    rw [if_pos h]

/-- Witness for C2: the 1.1× floor engages on a concrete inverted pair. -/
theorem claim_C2_witness : applyBurnRadiusGuard 1 2 = 2 * 1.1 :=
  claim_C2.2 1 2 (by norm_num)

lemma radiusOf_eq {i : ImpactInputs} (h : 0 ≤ i.diameter) :
    radiusOf i = i.diameter / 2 :=
  max_eq_right (div_nonneg h (by norm_num))

lemma radiusOf_pos {i : ImpactInputs} (hd : 0 < i.diameter) : 0 < radiusOf i :=
  lt_max_of_lt_right (by positivity)

lemma massOf_pos {i : ImpactInputs} (hd : 0 < i.diameter) (hρ : 0 < i.density) :
    0 < massOf i :=
  mul_pos (mul_pos (mul_pos (by norm_num) Real.pi_pos)
    (Real.rpow_pos_of_pos (radiusOf_pos hd) _)) hρ

lemma kineticEnergyOf_pos {i : ImpactInputs} (hd : 0 < i.diameter)
    (hρ : 0 < i.density) (hv : 0 < i.velocity) : 0 < kineticEnergyOf i :=
  mul_pos (mul_pos (by norm_num) (massOf_pos hd hρ)) (Real.rpow_pos_of_pos hv _)

lemma eTonsOf_eq {i : ImpactInputs} (h : 0 ≤ kineticEnergyOf i) :
    eTonsOf i = kineticEnergyOf i / 4.184e9 := by
  unfold eTonsOf energyTNTOf
  exact max_eq_right (div_nonneg h (by norm_num))

lemma eTonsOf_pos {i : ImpactInputs} (h : 0 < kineticEnergyOf i) : 0 < eTonsOf i := by
  rw [eTonsOf_eq h.le]; exact div_pos h (by norm_num)

lemma calculateCraterDiameter_nonneg (d ρ v a td g : ℝ) :
    0 ≤ calculateCraterDiameter d ρ v a td g := by
  simp only [calculateCraterDiameter]
  exact le_max_left 0 _

lemma craterDiameterOf_nonneg (i : ImpactInputs) : 0 ≤ craterDiameterOf i :=
  div_nonneg (calculateCraterDiameter_nonneg _ _ _ _ _ _) (by norm_num)

lemma secondDegreeBurnRadiusOf_eq_raw (i : ImpactInputs) :
    secondDegreeBurnRadiusOf i = rawSecondDegreeBurnRadiusOf i := by
  unfold secondDegreeBurnRadiusOf applyBurnRadiusGuard
  rw [if_neg (not_lt.mpr (third_le_rawSecond i))]

/-- C3: for positive diameter, density and velocity, every energy-derived
field of `calculateImpact` equals the closed-form reference pipeline. -/
theorem claim_C3 (i : ImpactInputs) (hd : 0 < i.diameter) (hρ : 0 < i.density)
    (hv : 0 < i.velocity) :
    (calculateImpact i).mass = 4 / 3 * π * (i.diameter / 2) ^ (3 : ℝ) * i.density ∧
    (calculateImpact i).kineticEnergy =
      0.5 * (calculateImpact i).mass * i.velocity ^ (2 : ℝ) ∧
    (calculateImpact i).energyTNT = (calculateImpact i).kineticEnergy / 4.184e9 ∧
    (calculateImpact i).volcanoEquivalent = (calculateImpact i).energyTNT / 1e6 / 200 ∧
    (calculateImpact i).severeDamageRadius =
      4.5 * ((calculateImpact i).energyTNT / 1e6) ^ ((1 : ℝ) / 3) ∧
    (calculateImpact i).thirdDegreeBurnRadius =
      8.0 * ((calculateImpact i).energyTNT / 1e6) ^ (0.40 : ℝ) ∧
    (calculateImpact i).secondDegreeBurnRadius =
      13.0 * ((calculateImpact i).energyTNT / 1e6) ^ (0.40 : ℝ) ∧
    (calculateImpact i).noiseDamageRadius =
      15.0 * ((calculateImpact i).energyTNT / 1e3) ^ (0.25 : ℝ) := by
  have hm := massOf_pos hd hρ
  have hk := kineticEnergyOf_pos hd hρ hv
  have ht := eTonsOf_pos hk
  have hMt : 0 < eMtOf i := div_pos ht (by norm_num)
  have hKt : 0 < eKtOf i := div_pos ht (by norm_num)
  refine ⟨?_, ?_, ?_, ?_, ?_, ?_, ?_, ?_⟩
  · show safe (massOf i) = _
    rw [safe_of_pos hm]
    simp only [massOf]
    rw [radiusOf_eq hd.le]
  · show safe (kineticEnergyOf i) = 0.5 * safe (massOf i) * _
    rw [safe_of_pos hk, safe_of_pos hm]
    rfl
  · show safe (eTonsOf i) = safe (kineticEnergyOf i) / 4.184e9
    rw [safe_of_pos ht, safe_of_pos hk, eTonsOf_eq hk.le]
  · show safe (volcanoEquivalentOf i) = safe (eTonsOf i) / 1e6 / 200
    rw [safe_of_pos (show 0 < volcanoEquivalentOf i from div_pos hMt (by norm_num)),
      safe_of_pos ht]
    rfl
  · show safe (severeDamageRadiusOf i) = 4.5 * (safe (eTonsOf i) / 1e6) ^ ((1 : ℝ) / 3)
    rw [safe_of_pos (show 0 < severeDamageRadiusOf i from
      mul_pos (by norm_num) (Real.rpow_pos_of_pos hMt _)), safe_of_pos ht]
    rfl
  · show safe (thirdDegreeBurnRadiusOf i) = 8.0 * (safe (eTonsOf i) / 1e6) ^ (0.40 : ℝ)
    rw [safe_of_pos (show 0 < thirdDegreeBurnRadiusOf i from
      mul_pos (by norm_num) (Real.rpow_pos_of_pos hMt _)), safe_of_pos ht]
    rfl
  · show safe (secondDegreeBurnRadiusOf i) = 13.0 * (safe (eTonsOf i) / 1e6) ^ (0.40 : ℝ)
    rw [secondDegreeBurnRadiusOf_eq_raw i,
      safe_of_pos (show 0 < rawSecondDegreeBurnRadiusOf i from
        mul_pos (by norm_num) (Real.rpow_pos_of_pos hMt _)), safe_of_pos ht]
    rfl
  · show safe (noiseDamageRadiusOf i) = 15.0 * (safe (eTonsOf i) / 1e3) ^ (0.25 : ℝ)
    rw [safe_of_pos (show 0 < noiseDamageRadiusOf i from
      mul_pos (by norm_num) (Real.rpow_pos_of_pos hKt _)), safe_of_pos ht]
    rfl

/-- Witness for C3 at the spec's reference input
`diameter = 100 m, density = 3000 kg/m³, velocity = 20000 m/s, angle = 45°`. -/
theorem claim_C3_witness :
    (calculateImpact ⟨100, 3000, 20000, 45⟩).mass =
      4 / 3 * π * ((100 : ℝ) / 2) ^ (3 : ℝ) * 3000 :=
  (claim_C3 ⟨100, 3000, 20000, 45⟩ (by norm_num) (by norm_num) (by norm_num)).1

/-- C10: two inputs agreeing on diameter, density and velocity produce
results that can differ only in `craterDiameter`; every other field is
identical, because the angle enters only through the crater scaling law. -/
theorem claim_C10 (i j : ImpactInputs) (hd : i.diameter = j.diameter)
    (hρ : i.density = j.density) (hv : i.velocity = j.velocity) :
    (calculateImpact i).mass = (calculateImpact j).mass ∧
    (calculateImpact i).kineticEnergy = (calculateImpact j).kineticEnergy ∧
    (calculateImpact i).energyTNT = (calculateImpact j).energyTNT ∧
    (calculateImpact i).volcanoEquivalent = (calculateImpact j).volcanoEquivalent ∧
    (calculateImpact i).severeDamageRadius = (calculateImpact j).severeDamageRadius ∧
    (calculateImpact i).thirdDegreeBurnRadius = (calculateImpact j).thirdDegreeBurnRadius ∧
    (calculateImpact i).secondDegreeBurnRadius = (calculateImpact j).secondDegreeBurnRadius ∧
    (calculateImpact i).noiseDamageRadius = (calculateImpact j).noiseDamageRadius ∧
    (calculateImpact i).ozoneDepletionPercent = (calculateImpact j).ozoneDepletionPercent ∧
    (calculateImpact i).acidRainSeverity = (calculateImpact j).acidRainSeverity ∧
    (calculateImpact i).climateImpact = (calculateImpact j).climateImpact := by
  obtain ⟨d1, r1, v1, a1⟩ := i
  obtain ⟨d2, r2, v2, a2⟩ := j
  simp only at hd hρ hv
  subst hd hρ hv
  exact ⟨rfl, rfl, rfl, rfl, rfl, rfl, rfl, rfl, rfl, rfl, rfl⟩

/-- Witness for C10: two concrete inputs differing only in the angle. -/
theorem claim_C10_witness :
    (calculateImpact ⟨1, 2, 3, 10⟩).mass = (calculateImpact ⟨1, 2, 3, 80⟩).mass ∧
    (calculateImpact ⟨1, 2, 3, 10⟩).climateImpact =
      (calculateImpact ⟨1, 2, 3, 80⟩).climateImpact :=
  ⟨(claim_C10 ⟨1, 2, 3, 10⟩ ⟨1, 2, 3, 80⟩ rfl rfl rfl).1,
    (claim_C10 ⟨1, 2, 3, 10⟩ ⟨1, 2, 3, 80⟩ rfl rfl rfl).2.2.2.2.2.2.2.2.2.2⟩

/-- C4: `calculateCraterDiameter` clamps the angle to `[0.1, 90]` and
returns the Holsapple/Schmidt closed form floored at 0; `calculateImpact`
divides it by 1000; angles 0 and 0.05 both clamp to 0.1° and give the same
crater; and the sin term is maximal at 90°. -/
theorem claim_C4 :
    (∀ d ρ v a : ℝ, 0 ≤ d →
      calculateCraterDiameter d ρ v a 2700 9.81 =
        max 0 (1.3 * (1.161 * (9.81 : ℝ) ^ (-(0.22 : ℝ)) * (ρ / 2700) ^ ((1 : ℝ) / 3) *
          (d / 2) ^ (1 - (0.22 : ℝ)) * v ^ (2 * (0.22 : ℝ)) *
          Real.sin (clamp a 0.1 90 * π / 180) ^ ((1 : ℝ) / 3)))) ∧
    (∀ i : ImpactInputs, (calculateImpact i).craterDiameter =
      calculateCraterDiameter i.diameter i.density i.velocity i.angle 2700 9.81 / 1000) ∧
    (∀ d ρ v : ℝ, calculateCraterDiameter d ρ v 0 2700 9.81 =
      calculateCraterDiameter d ρ v 0.05 2700 9.81) ∧
    (∀ a : ℝ, Real.sin (clamp a 0.1 90 * π / 180) ≤
      Real.sin (clamp 90 0.1 90 * π / 180)) := by
  refine ⟨?_, ?_, ?_, ?_⟩
  · intro d ρ v a hd
    simp only [calculateCraterDiameter]
    rw [max_eq_right (div_nonneg hd (by norm_num))]
    congr 1
    ring
  · intro i
    show safe (craterDiameterOf i) = _
    rw [safe_of_nonneg (craterDiameterOf_nonneg i)]
    rfl
  · intro d ρ v
    have hclamp : clamp (0 : ℝ) 0.1 90 = clamp 0.05 0.1 90 := by
      unfold clamp
      rw [max_eq_left (by norm_num : (0 : ℝ) ≤ 0.1),
        max_eq_left (by norm_num : (0.05 : ℝ) ≤ 0.1)]
    simp only [calculateCraterDiameter, hclamp]
  · intro a
    have h90 : clamp (90 : ℝ) 0.1 90 = 90 := by
      unfold clamp
      rw [max_eq_right (by norm_num : (0.1 : ℝ) ≤ 90), min_self]
    rw [h90, show (90 : ℝ) * π / 180 = π / 2 by ring, Real.sin_pi_div_two]
    exact Real.sin_le_one _

/-- Witness for C4's closed form at a concrete input. -/
theorem claim_C4_witness :
    calculateCraterDiameter 2 3 4 5 2700 9.81 =
      max 0 (1.3 * (1.161 * (9.81 : ℝ) ^ (-(0.22 : ℝ)) * ((3 : ℝ) / 2700) ^ ((1 : ℝ) / 3) *
        ((2 : ℝ) / 2) ^ (1 - (0.22 : ℝ)) * (4 : ℝ) ^ (2 * (0.22 : ℝ)) *
        Real.sin (clamp 5 0.1 90 * π / 180) ^ ((1 : ℝ) / 3))) :=
  claim_C4.1 2 3 4 5 (by norm_num)

/-- C7: the acid-rain label is determined exactly by the 1e18/1e16 joule
thresholds on the kinetic energy, and the climate label exactly by the
1/1000 megaton thresholds, with the stated boundary behavior. -/
theorem claim_C7 (i : ImpactInputs) :
    ((calculateImpact i).acidRainSeverity = "Severe acid rain likely (global)" ↔
      1e18 ≤ kineticEnergyOf i) ∧
    ((calculateImpact i).acidRainSeverity = "Regional acid rain possible" ↔
      (1e16 ≤ kineticEnergyOf i ∧ kineticEnergyOf i < 1e18)) ∧
    ((calculateImpact i).acidRainSeverity = "Localized acid rain possible" ↔
      kineticEnergyOf i < 1e16) ∧
    ((calculateImpact i).climateImpact = "Negligible global climate impact" ↔
      eMtOf i < 1) ∧
    ((calculateImpact i).climateImpact = "Regional cooling ('mini impact winter')" ↔
      (1 ≤ eMtOf i ∧ eMtOf i < 1000)) ∧
    ((calculateImpact i).climateImpact =
        "Global impact winter (years of cooling) followed by greenhouse warming" ↔
      1000 ≤ eMtOf i) := by
  show (acidRainSeverityOf i = _ ↔ _) ∧ (acidRainSeverityOf i = _ ↔ _) ∧
    (acidRainSeverityOf i = _ ↔ _) ∧ (climateImpactOf i = _ ↔ _) ∧
    (climateImpactOf i = _ ↔ _) ∧ (climateImpactOf i = _ ↔ _)
  unfold acidRainSeverityOf climateImpactOf
  refine ⟨?_, ?_, ?_, ?_, ?_, ?_⟩ <;>
    split_ifs with h1 h2 <;> simp_all <;> linarith

lemma estimateOzoneDepletion_nonneg (e : ℝ) : 0 ≤ estimateOzoneDepletion e := by
  unfold estimateOzoneDepletion
  split
  · exact le_rfl
  · exact le_min (by norm_num) (le_max_left 0 _)

lemma estimateOzoneDepletion_le_50 (e : ℝ) : estimateOzoneDepletion e ≤ 50 := by
  unfold estimateOzoneDepletion
  split
  · norm_num
  · exact min_le_left _ _

/-- C6: the ozone estimator returns 0 on non-positive yield, the clamped
quarter-power curve on positive yield, tends to 0 at 0⁺ and to 50 at ∞,
is monotone, and the returned `ozoneDepletionPercent` always lies in
`[0, 50]`. -/
theorem claim_C6 :
    (∀ e : ℝ, e ≤ 0 → estimateOzoneDepletion e = 0) ∧
    (∀ e : ℝ, 0 < e → estimateOzoneDepletion e = clamp (5 * e ^ (0.25 : ℝ)) 0 50) ∧
    Filter.Tendsto estimateOzoneDepletion (nhdsWithin 0 (Set.Ioi 0)) (nhds 0) ∧
    Filter.Tendsto estimateOzoneDepletion Filter.atTop (nhds 50) ∧
    Monotone estimateOzoneDepletion ∧
    (∀ i : ImpactInputs, 0 ≤ (calculateImpact i).ozoneDepletionPercent ∧
      (calculateImpact i).ozoneDepletionPercent ≤ 50) := by
  have hzero : ∀ e : ℝ, e ≤ 0 → estimateOzoneDepletion e = 0 := fun e he => by
    unfold estimateOzoneDepletion
    rw [if_pos he]
  have hpos : ∀ e : ℝ, 0 < e → estimateOzoneDepletion e = clamp (5 * e ^ (0.25 : ℝ)) 0 50 :=
    fun e he => by
      unfold estimateOzoneDepletion
      rw [if_neg (not_le.mpr he)]
  refine ⟨hzero, hpos, ?_, ?_, ?_, ?_⟩
  · have hcont : Filter.Tendsto (fun e : ℝ => e ^ (0.25 : ℝ)) (nhds 0) (nhds 0) := by
      have h := (Real.continuousAt_rpow_const 0 0.25 (Or.inr (by norm_num))).tendsto
      rwa [Real.zero_rpow (by norm_num)] at h
    have hmul : Filter.Tendsto (fun e : ℝ => 5 * e ^ (0.25 : ℝ))
        (nhdsWithin 0 (Set.Ioi 0)) (nhds (5 * 0)) :=
      (hcont.const_mul 5).mono_left nhdsWithin_le_nhds
    have hbase : Filter.Tendsto (fun e : ℝ => min 50 (max 0 (5 * e ^ (0.25 : ℝ))))
        (nhdsWithin 0 (Set.Ioi 0)) (nhds (min 50 (max 0 (5 * 0)))) :=
      Filter.Tendsto.min tendsto_const_nhds (Filter.Tendsto.max tendsto_const_nhds hmul)
    have h50 : min (50 : ℝ) (max 0 (5 * 0)) = 0 := by
      rw [mul_zero, max_self, min_eq_right (by norm_num)]
    rw [h50] at hbase
    refine Filter.Tendsto.congr' ?_ hbase
    filter_upwards [self_mem_nhdsWithin] with x hx
    rw [hpos x hx]
    rfl
  · have hev : ∀ x : ℝ, 10000 ≤ x → estimateOzoneDepletion x = 50 := by
      intro x hx
      rw [hpos x (by linarith)]
      have h10 : (10000 : ℝ) ^ (0.25 : ℝ) = 10 := by
        rw [show (10000 : ℝ) = (10 : ℝ) ^ (4 : ℕ) by norm_num,
          ← Real.rpow_natCast (10 : ℝ) 4, ← Real.rpow_mul (by norm_num)]
        norm_num
      have hge : (50 : ℝ) ≤ 5 * x ^ (0.25 : ℝ) := by
        have := Real.rpow_le_rpow (by norm_num : (0 : ℝ) ≤ 10000) hx (by norm_num : (0 : ℝ) ≤ 0.25)
        rw [h10] at this
        linarith
      unfold clamp
      rw [max_eq_right (by linarith), min_eq_left hge]
    refine Filter.Tendsto.congr' ?_ tendsto_const_nhds
    filter_upwards [Filter.eventually_ge_atTop (10000 : ℝ)] with x hx
    exact (hev x hx).symm
  · intro a b hab
    unfold estimateOzoneDepletion
    split_ifs with ha hb
    · exact le_rfl
    · exact le_min (by norm_num) (le_max_left 0 _)
    · linarith
    · exact min_le_min le_rfl (max_le_max le_rfl
        (mul_le_mul_of_nonneg_left
          (Real.rpow_le_rpow (le_of_lt (not_le.mp ha)) hab (by norm_num)) (by norm_num)))
  · intro i
    constructor
    · show 0 ≤ clamp (estimateOzoneDepletion (eMtOf i)) 0 100
      exact le_min (by norm_num) (le_max_left 0 _)
    · show clamp (estimateOzoneDepletion (eMtOf i)) 0 100 ≤ 50
      unfold clamp
      calc min 100 (max 0 (estimateOzoneDepletion (eMtOf i))) ≤
          max 0 (estimateOzoneDepletion (eMtOf i)) := min_le_right _ _
        _ ≤ 50 := max_le (by norm_num) (estimateOzoneDepletion_le_50 _)

/-- Witness for C6 at the concrete yields 0 and 1. -/
theorem claim_C6_witness :
    estimateOzoneDepletion 0 = 0 ∧
      estimateOzoneDepletion 1 = clamp (5 * (1 : ℝ) ^ (0.25 : ℝ)) 0 50 :=
  ⟨claim_C6.1 0 le_rfl, claim_C6.2.1 1 one_pos⟩

lemma calcCrater_eq (d ρ v a td g : ℝ) :
    calculateCraterDiameter d ρ v a td g =
      max 0 (1.161 * g ^ (-(0.22 : ℝ)) * (ρ / td) ^ ((1 : ℝ) / 3) *
        max 0 (d / 2) ^ (1 - (0.22 : ℝ)) * v ^ (2 * (0.22 : ℝ)) *
        Real.sin (clamp a 0.1 90 * π / 180) ^ ((1 : ℝ) / 3) * 1.3) := rfl

lemma sinTerm_pos (a : ℝ) : 0 < Real.sin (clamp a 0.1 90 * π / 180) := by
  have h1 : (0.1 : ℝ) ≤ clamp a 0.1 90 := le_min (by norm_num) (le_max_left _ _)
  have h2 : clamp a 0.1 90 ≤ 90 := min_le_left _ _
  have hπ := Real.pi_pos
  apply Real.sin_pos_of_pos_of_lt_pi
  · exact div_pos (mul_pos (by linarith) hπ) (by norm_num)
  · have hcπ : clamp a 0.1 90 * π ≤ 90 * π :=
      mul_le_mul_of_nonneg_right h2 hπ.le
    linarith

lemma calcCrater_pos {d ρ v : ℝ} (a : ℝ) (hd : 0 < d) (hρ : 0 < ρ) (hv : 0 < v) :
    0 < calculateCraterDiameter d ρ v a 2700 9.81 := by
  rw [calcCrater_eq]
  have hg : 0 < (9.81 : ℝ) ^ (-(0.22 : ℝ)) := Real.rpow_pos_of_pos (by norm_num) _
  have hq : 0 < (ρ / 2700 : ℝ) ^ ((1 : ℝ) / 3) :=
    Real.rpow_pos_of_pos (div_pos hρ (by norm_num)) _
  have hrt : 0 < max 0 (d / 2) ^ (1 - (0.22 : ℝ)) :=
    Real.rpow_pos_of_pos (lt_max_of_lt_right (half_pos hd)) _
  have hvv : 0 < v ^ (2 * (0.22 : ℝ)) := Real.rpow_pos_of_pos hv _
  have hs : 0 < Real.sin (clamp a 0.1 90 * π / 180) ^ ((1 : ℝ) / 3) :=
    Real.rpow_pos_of_pos (sinTerm_pos a) _
  exact lt_max_of_lt_right (mul_pos (mul_pos (mul_pos (mul_pos (mul_pos
    (mul_pos (by norm_num) hg) hq) hrt) hvv) hs) (by norm_num))

lemma crater_core_lt_diam {ρ v d₁ d₂ : ℝ} (a : ℝ) (hρ : 0 < ρ) (hv : 0 < v)
    (hd₁ : 0 < d₁) (h : d₁ < d₂) :
    calculateCraterDiameter d₁ ρ v a 2700 9.81 < calculateCraterDiameter d₂ ρ v a 2700 9.81 := by
  rw [calcCrater_eq, calcCrater_eq]
  have hg : 0 < (9.81 : ℝ) ^ (-(0.22 : ℝ)) := Real.rpow_pos_of_pos (by norm_num) _
  have hq : 0 < (ρ / 2700 : ℝ) ^ ((1 : ℝ) / 3) :=
    Real.rpow_pos_of_pos (div_pos hρ (by norm_num)) _
  have hC : 0 < 1.161 * (9.81 : ℝ) ^ (-(0.22 : ℝ)) * (ρ / 2700 : ℝ) ^ ((1 : ℝ) / 3) :=
    mul_pos (mul_pos (by norm_num) hg) hq
  have hvv : 0 < v ^ (2 * (0.22 : ℝ)) := Real.rpow_pos_of_pos hv _
  have hs : 0 < Real.sin (clamp a 0.1 90 * π / 180) ^ ((1 : ℝ) / 3) :=
    Real.rpow_pos_of_pos (sinTerm_pos a) _
  have hrt : max 0 (d₁ / 2) ^ (1 - (0.22 : ℝ)) < max 0 (d₂ / 2) ^ (1 - (0.22 : ℝ)) := by
    rw [max_eq_right (half_pos hd₁).le, max_eq_right (half_pos (hd₁.trans h)).le]
    exact Real.rpow_lt_rpow (half_pos hd₁).le (by linarith) (by norm_num)
  have hT : 1.161 * (9.81 : ℝ) ^ (-(0.22 : ℝ)) * (ρ / 2700 : ℝ) ^ ((1 : ℝ) / 3) *
      max 0 (d₁ / 2) ^ (1 - (0.22 : ℝ)) * v ^ (2 * (0.22 : ℝ)) *
      Real.sin (clamp a 0.1 90 * π / 180) ^ ((1 : ℝ) / 3) * 1.3 <
      1.161 * (9.81 : ℝ) ^ (-(0.22 : ℝ)) * (ρ / 2700 : ℝ) ^ ((1 : ℝ) / 3) *
      max 0 (d₂ / 2) ^ (1 - (0.22 : ℝ)) * v ^ (2 * (0.22 : ℝ)) *
      Real.sin (clamp a 0.1 90 * π / 180) ^ ((1 : ℝ) / 3) * 1.3 :=
    mul_lt_mul_of_pos_right (mul_lt_mul_of_pos_right (mul_lt_mul_of_pos_right
      (mul_lt_mul_of_pos_left hrt hC) hvv) hs) (by norm_num)
  have hT₁ : 0 < 1.161 * (9.81 : ℝ) ^ (-(0.22 : ℝ)) * (ρ / 2700 : ℝ) ^ ((1 : ℝ) / 3) *
      max 0 (d₁ / 2) ^ (1 - (0.22 : ℝ)) * v ^ (2 * (0.22 : ℝ)) *
      Real.sin (clamp a 0.1 90 * π / 180) ^ ((1 : ℝ) / 3) * 1.3 :=
    mul_pos (mul_pos (mul_pos (mul_pos hC
      (Real.rpow_pos_of_pos (lt_max_of_lt_right (half_pos hd₁)) _)) hvv) hs) (by norm_num)
  rw [max_eq_right hT₁.le, max_eq_right (hT₁.trans hT).le]
  exact hT

lemma crater_core_lt_vel {ρ d v₁ v₂ : ℝ} (a : ℝ) (hρ : 0 < ρ) (hd : 0 < d)
    (hv₁ : 0 < v₁) (h : v₁ < v₂) :
    calculateCraterDiameter d ρ v₁ a 2700 9.81 < calculateCraterDiameter d ρ v₂ a 2700 9.81 := by
  rw [calcCrater_eq, calcCrater_eq]
  have hg : 0 < (9.81 : ℝ) ^ (-(0.22 : ℝ)) := Real.rpow_pos_of_pos (by norm_num) _
  have hq : 0 < (ρ / 2700 : ℝ) ^ ((1 : ℝ) / 3) :=
    Real.rpow_pos_of_pos (div_pos hρ (by norm_num)) _
  have hrt : 0 < max 0 (d / 2) ^ (1 - (0.22 : ℝ)) :=
    Real.rpow_pos_of_pos (lt_max_of_lt_right (half_pos hd)) _
  have hA : 0 < 1.161 * (9.81 : ℝ) ^ (-(0.22 : ℝ)) * (ρ / 2700 : ℝ) ^ ((1 : ℝ) / 3) *
      max 0 (d / 2) ^ (1 - (0.22 : ℝ)) :=
    mul_pos (mul_pos (mul_pos (by norm_num) hg) hq) hrt
  have hs : 0 < Real.sin (clamp a 0.1 90 * π / 180) ^ ((1 : ℝ) / 3) :=
    Real.rpow_pos_of_pos (sinTerm_pos a) _
  have hvv : v₁ ^ (2 * (0.22 : ℝ)) < v₂ ^ (2 * (0.22 : ℝ)) :=
    Real.rpow_lt_rpow hv₁.le h (by norm_num)
  have hT : 1.161 * (9.81 : ℝ) ^ (-(0.22 : ℝ)) * (ρ / 2700 : ℝ) ^ ((1 : ℝ) / 3) *
      max 0 (d / 2) ^ (1 - (0.22 : ℝ)) * v₁ ^ (2 * (0.22 : ℝ)) *
      Real.sin (clamp a 0.1 90 * π / 180) ^ ((1 : ℝ) / 3) * 1.3 <
      1.161 * (9.81 : ℝ) ^ (-(0.22 : ℝ)) * (ρ / 2700 : ℝ) ^ ((1 : ℝ) / 3) *
      max 0 (d / 2) ^ (1 - (0.22 : ℝ)) * v₂ ^ (2 * (0.22 : ℝ)) *
      Real.sin (clamp a 0.1 90 * π / 180) ^ ((1 : ℝ) / 3) * 1.3 :=
    mul_lt_mul_of_pos_right (mul_lt_mul_of_pos_right
      (mul_lt_mul_of_pos_left hvv hA) hs) (by norm_num)
  have hT₁ : 0 < 1.161 * (9.81 : ℝ) ^ (-(0.22 : ℝ)) * (ρ / 2700 : ℝ) ^ ((1 : ℝ) / 3) *
      max 0 (d / 2) ^ (1 - (0.22 : ℝ)) * v₁ ^ (2 * (0.22 : ℝ)) *
      Real.sin (clamp a 0.1 90 * π / 180) ^ ((1 : ℝ) / 3) * 1.3 :=
    mul_pos (mul_pos (mul_pos hA (Real.rpow_pos_of_pos hv₁ _)) hs) (by norm_num)
  rw [max_eq_right hT₁.le, max_eq_right (hT₁.trans hT).le]
  exact hT

lemma resultFields_lt {i j : ImpactInputs} (hk₁ : 0 < kineticEnergyOf i)
    (hk : kineticEnergyOf i < kineticEnergyOf j)
    (hcr₁ : 0 < craterDiameterOf i) (hcr : craterDiameterOf i < craterDiameterOf j) :
    (calculateImpact i).energyTNT < (calculateImpact j).energyTNT ∧
    (calculateImpact i).craterDiameter < (calculateImpact j).craterDiameter ∧
    (calculateImpact i).severeDamageRadius < (calculateImpact j).severeDamageRadius ∧
    (calculateImpact i).thirdDegreeBurnRadius < (calculateImpact j).thirdDegreeBurnRadius ∧
    (calculateImpact i).secondDegreeBurnRadius < (calculateImpact j).secondDegreeBurnRadius ∧
    (calculateImpact i).noiseDamageRadius < (calculateImpact j).noiseDamageRadius := by
  have ht₁ : 0 < eTonsOf i := eTonsOf_pos hk₁
  have ht : eTonsOf i < eTonsOf j := by
    rw [eTonsOf_eq hk₁.le, eTonsOf_eq (hk₁.trans hk).le]
    gcongr
  have hMt₁ : 0 < eMtOf i := div_pos ht₁ (by norm_num)
  have hMt : eMtOf i < eMtOf j := by unfold eMtOf; gcongr
  have hKt₁ : 0 < eKtOf i := div_pos ht₁ (by norm_num)
  have hKt : eKtOf i < eKtOf j := by unfold eKtOf; gcongr
  refine ⟨?_, ?_, ?_, ?_, ?_, ?_⟩
  · show safe (eTonsOf i) < safe (eTonsOf j)
    rw [safe_of_pos ht₁, safe_of_pos (ht₁.trans ht)]
    exact ht
  · show safe (craterDiameterOf i) < safe (craterDiameterOf j)
    rw [safe_of_pos hcr₁, safe_of_pos (hcr₁.trans hcr)]
    exact hcr
  · show safe (severeDamageRadiusOf i) < safe (severeDamageRadiusOf j)
    have h₁ : 0 < severeDamageRadiusOf i := by
      unfold severeDamageRadiusOf
      exact mul_pos (by norm_num) (Real.rpow_pos_of_pos hMt₁ _)
    have hlt : severeDamageRadiusOf i < severeDamageRadiusOf j := by
      unfold severeDamageRadiusOf
      exact mul_lt_mul_of_pos_left
        (Real.rpow_lt_rpow (eMtOf_nonneg i) hMt (by norm_num)) (by norm_num)
    rw [safe_of_pos h₁, safe_of_pos (h₁.trans hlt)]
    exact hlt
  · show safe (thirdDegreeBurnRadiusOf i) < safe (thirdDegreeBurnRadiusOf j)
    have h₁ : 0 < thirdDegreeBurnRadiusOf i := by
      unfold thirdDegreeBurnRadiusOf
      exact mul_pos (by norm_num) (Real.rpow_pos_of_pos hMt₁ _)
    have hlt : thirdDegreeBurnRadiusOf i < thirdDegreeBurnRadiusOf j := by
      unfold thirdDegreeBurnRadiusOf
      exact mul_lt_mul_of_pos_left
        (Real.rpow_lt_rpow (eMtOf_nonneg i) hMt (by norm_num)) (by norm_num)
    rw [safe_of_pos h₁, safe_of_pos (h₁.trans hlt)]
    exact hlt
  · show safe (secondDegreeBurnRadiusOf i) < safe (secondDegreeBurnRadiusOf j)
    rw [secondDegreeBurnRadiusOf_eq_raw, secondDegreeBurnRadiusOf_eq_raw]
    have h₁ : 0 < rawSecondDegreeBurnRadiusOf i := by
      unfold rawSecondDegreeBurnRadiusOf
      exact mul_pos (by norm_num) (Real.rpow_pos_of_pos hMt₁ _)
    have hlt : rawSecondDegreeBurnRadiusOf i < rawSecondDegreeBurnRadiusOf j := by
      unfold rawSecondDegreeBurnRadiusOf
      exact mul_lt_mul_of_pos_left
        (Real.rpow_lt_rpow (eMtOf_nonneg i) hMt (by norm_num)) (by norm_num)
    rw [safe_of_pos h₁, safe_of_pos (h₁.trans hlt)]
    exact hlt
  · show safe (noiseDamageRadiusOf i) < safe (noiseDamageRadiusOf j)
    have h₁ : 0 < noiseDamageRadiusOf i := by
      unfold noiseDamageRadiusOf
      exact mul_pos (by norm_num) (Real.rpow_pos_of_pos hKt₁ _)
    have hlt : noiseDamageRadiusOf i < noiseDamageRadiusOf j := by
      unfold noiseDamageRadiusOf
      exact mul_lt_mul_of_pos_left
        (Real.rpow_lt_rpow (eKtOf_nonneg i) hKt (by norm_num)) (by norm_num)
    rw [safe_of_pos h₁, safe_of_pos (h₁.trans hlt)]
    exact hlt

/-- C5: with density, velocity and angle fixed (all positive where
required), `energyTNT`, `craterDiameter` and the four damage radii are
strictly increasing in diameter; with diameter, density and angle fixed
they are strictly increasing in velocity. -/
theorem claim_C5 :
    (∀ ρ v a d₁ d₂ : ℝ, 0 < ρ → 0 < v → 0 < d₁ → d₁ < d₂ →
      (calculateImpact ⟨d₁, ρ, v, a⟩).energyTNT < (calculateImpact ⟨d₂, ρ, v, a⟩).energyTNT ∧
      (calculateImpact ⟨d₁, ρ, v, a⟩).craterDiameter <
        (calculateImpact ⟨d₂, ρ, v, a⟩).craterDiameter ∧
      (calculateImpact ⟨d₁, ρ, v, a⟩).severeDamageRadius <
        (calculateImpact ⟨d₂, ρ, v, a⟩).severeDamageRadius ∧
      (calculateImpact ⟨d₁, ρ, v, a⟩).thirdDegreeBurnRadius <
        (calculateImpact ⟨d₂, ρ, v, a⟩).thirdDegreeBurnRadius ∧
      (calculateImpact ⟨d₁, ρ, v, a⟩).secondDegreeBurnRadius <
        (calculateImpact ⟨d₂, ρ, v, a⟩).secondDegreeBurnRadius ∧
      (calculateImpact ⟨d₁, ρ, v, a⟩).noiseDamageRadius <
        (calculateImpact ⟨d₂, ρ, v, a⟩).noiseDamageRadius) ∧
    (∀ d ρ a v₁ v₂ : ℝ, 0 < d → 0 < ρ → 0 < v₁ → v₁ < v₂ →
      (calculateImpact ⟨d, ρ, v₁, a⟩).energyTNT < (calculateImpact ⟨d, ρ, v₂, a⟩).energyTNT ∧
      (calculateImpact ⟨d, ρ, v₁, a⟩).craterDiameter <
        (calculateImpact ⟨d, ρ, v₂, a⟩).craterDiameter ∧
      (calculateImpact ⟨d, ρ, v₁, a⟩).severeDamageRadius <
        (calculateImpact ⟨d, ρ, v₂, a⟩).severeDamageRadius ∧
      (calculateImpact ⟨d, ρ, v₁, a⟩).thirdDegreeBurnRadius <
        (calculateImpact ⟨d, ρ, v₂, a⟩).thirdDegreeBurnRadius ∧
      (calculateImpact ⟨d, ρ, v₁, a⟩).secondDegreeBurnRadius <
        (calculateImpact ⟨d, ρ, v₂, a⟩).secondDegreeBurnRadius ∧
      (calculateImpact ⟨d, ρ, v₁, a⟩).noiseDamageRadius <
        (calculateImpact ⟨d, ρ, v₂, a⟩).noiseDamageRadius) := by
  constructor
  · intro ρ v a d₁ d₂ hρ hv hd₁ hdd
    have hm : massOf ⟨d₁, ρ, v, a⟩ < massOf ⟨d₂, ρ, v, a⟩ := by
      simp only [massOf, radiusOf]
      rw [max_eq_right (half_pos hd₁).le, max_eq_right (half_pos (hd₁.trans hdd)).le]
      exact mul_lt_mul_of_pos_right (mul_lt_mul_of_pos_left
        (Real.rpow_lt_rpow (half_pos hd₁).le (by linarith) (by norm_num))
        (by positivity)) hρ
    have hk : kineticEnergyOf ⟨d₁, ρ, v, a⟩ < kineticEnergyOf ⟨d₂, ρ, v, a⟩ := by
      simp only [kineticEnergyOf]
      exact mul_lt_mul_of_pos_right (mul_lt_mul_of_pos_left hm (by norm_num))
        (Real.rpow_pos_of_pos hv _)
    have hk₁ : 0 < kineticEnergyOf ⟨d₁, ρ, v, a⟩ := kineticEnergyOf_pos hd₁ hρ hv
    have hcr₁ : 0 < craterDiameterOf ⟨d₁, ρ, v, a⟩ := by
      simp only [craterDiameterOf]
      exact div_pos (calcCrater_pos a hd₁ hρ hv) (by norm_num)
    have hcr : craterDiameterOf ⟨d₁, ρ, v, a⟩ < craterDiameterOf ⟨d₂, ρ, v, a⟩ := by
      simp only [craterDiameterOf]
      linarith [crater_core_lt_diam a hρ hv hd₁ hdd]
    exact resultFields_lt hk₁ hk hcr₁ hcr
  · intro d ρ a v₁ v₂ hd hρ hv₁ hvv
    have hmass : 0 < massOf ⟨d, ρ, v₁, a⟩ := massOf_pos hd hρ
    have hk : kineticEnergyOf ⟨d, ρ, v₁, a⟩ < kineticEnergyOf ⟨d, ρ, v₂, a⟩ := by
      simp only [kineticEnergyOf]
      rw [show massOf ⟨d, ρ, v₂, a⟩ = massOf ⟨d, ρ, v₁, a⟩ from rfl]
      exact mul_lt_mul_of_pos_left (Real.rpow_lt_rpow hv₁.le hvv (by norm_num))
        (mul_pos (by norm_num) hmass)
    have hk₁ : 0 < kineticEnergyOf ⟨d, ρ, v₁, a⟩ := kineticEnergyOf_pos hd hρ hv₁
    have hcr₁ : 0 < craterDiameterOf ⟨d, ρ, v₁, a⟩ := by
      simp only [craterDiameterOf]
      exact div_pos (calcCrater_pos a hd hρ hv₁) (by norm_num)
    have hcr : craterDiameterOf ⟨d, ρ, v₁, a⟩ < craterDiameterOf ⟨d, ρ, v₂, a⟩ := by
      simp only [craterDiameterOf]
      linarith [crater_core_lt_vel a hρ hd hv₁ hvv]
    exact resultFields_lt hk₁ hk hcr₁ hcr

/-- Witness for C5: concrete diameter and velocity pairs. -/
theorem claim_C5_witness :
    (calculateImpact ⟨10, 3000, 20000, 45⟩).energyTNT <
      (calculateImpact ⟨20, 3000, 20000, 45⟩).energyTNT ∧
    (calculateImpact ⟨100, 3000, 12000, 45⟩).noiseDamageRadius <
      (calculateImpact ⟨100, 3000, 24000, 45⟩).noiseDamageRadius :=
  ⟨(claim_C5.1 3000 20000 45 10 20 (by norm_num) (by norm_num) (by norm_num)
      (by norm_num)).1,
    (claim_C5.2 100 3000 45 12000 24000 (by norm_num) (by norm_num) (by norm_num)
      (by norm_num)).2.2.2.2.2⟩

/-- C8: the ring builder emits exactly one feature per input ring, ordered
descending by `radiusKm`, with id/color/label/radiusKm passed through
unchanged and the geometry paired to the ring's own radius; the concrete
radii `[10, 50, 25]` come out in order `[50, 25, 10]`; an empty ring list
yields an empty collection. -/
theorem claim_C8 :
    (∀ (center : MapLocation) (rings : List ImpactRing),
      (buildImpactRingCollection center rings).length = rings.length) ∧
    (∀ (center : MapLocation) (rings : List ImpactRing),
      List.Sorted (fun f g : GeoFeature => g.radiusKm ≤ f.radiusKm)
        (buildImpactRingCollection center rings)) ∧
    (∀ (center : MapLocation) (rings : List ImpactRing),
      List.Perm
        ((buildImpactRingCollection center rings).map fun f =>
          (f.id, f.color, f.label, f.radiusKm))
        (rings.map fun r => (r.id, r.color, r.label, r.radiusKm))) ∧
    (∀ (center : MapLocation) (rings : List ImpactRing),
      ∀ f ∈ buildImpactRingCollection center rings,
        f.geometry = createCirclePolygon center f.radiusKm 128) ∧
    (∀ center : MapLocation,
      (buildImpactRingCollection center
        [⟨"a", 10, none, none⟩, ⟨"b", 50, none, none⟩, ⟨"c", 25, none, none⟩]).map
          (fun f => f.radiusKm) = [50, 25, 10]) ∧
    (∀ center : MapLocation, buildImpactRingCollection center [] = []) := by
  refine ⟨?_, ?_, ?_, ?_, ?_, ?_⟩
  · intro center rings
    unfold buildImpactRingCollection ringsSortedDesc
    rw [List.length_map, List.length_insertionSort]
  · intro center rings
    unfold buildImpactRingCollection ringsSortedDesc
    exact List.Pairwise.map _ (fun a b (h : ringGE a b) => h)
      (List.sorted_insertionSort ringGE rings)
  · intro center rings
    unfold buildImpactRingCollection ringsSortedDesc
    rw [List.map_map]
    exact List.Perm.map _ (List.perm_insertionSort ringGE rings)
  · intro center rings f hf
    unfold buildImpactRingCollection at hf
    obtain ⟨ring, _, rfl⟩ := List.mem_map.mp hf
    rfl
  · intro center
    have hsort : ringsSortedDesc
        [⟨"a", 10, none, none⟩, ⟨"b", 50, none, none⟩, ⟨"c", 25, none, none⟩] =
        [⟨"b", 50, none, none⟩, ⟨"c", 25, none, none⟩, ⟨"a", 10, none, none⟩] := by
      unfold ringsSortedDesc
      norm_num [List.insertionSort, List.orderedInsert, ringGE]
    unfold buildImpactRingCollection
    rw [hsort]
    rfl
  · intro center
    rfl

/-- Witness for C8: the geometry pairing at a concrete center and ring. -/
theorem claim_C8_witness :
    (GeoFeature.mk (createCirclePolygon ⟨0, 0⟩ 10 128) "a" none none 10).geometry =
      createCirclePolygon ⟨0, 0⟩
        (GeoFeature.mk (createCirclePolygon ⟨0, 0⟩ 10 128) "a" none none 10).radiusKm 128 :=
  claim_C8.2.2.2.1 ⟨0, 0⟩ [⟨"a", 10, none, none⟩] _ (List.mem_singleton.mpr rfl)

lemma toDegrees_toRadians (x : ℝ) : toDegrees (toRadians x) = x := by
  unfold toRadians toDegrees
  field_simp

lemma atan2_zero_of_nonneg {x : ℝ} (hx : 0 ≤ x) : atan2 0 x = 0 := by
  unfold atan2
  split_ifs <;> first | linarith | rfl | rw [zero_div, Real.arctan_zero]

lemma toRadians_bounds {x : ℝ} (h : |x| ≤ 90) :
    -(π / 2) ≤ toRadians x ∧ toRadians x ≤ π / 2 := by
  obtain ⟨h1, h2⟩ := abs_le.mp h
  have hπ := Real.pi_pos
  have hlo : (-90 : ℝ) * π ≤ x * π := mul_le_mul_of_nonneg_right h1 hπ.le
  have hhi : x * π ≤ 90 * π := mul_le_mul_of_nonneg_right h2 hπ.le
  unfold toRadians
  constructor <;> linarith

lemma circleVertex_of_nonpos (center : MapLocation) {radiusKm : ℝ} (hr : radiusKm ≤ 0)
    (steps i : ℕ) :
    circleVertex center radiusKm steps i =
      (center.lng, toDegrees (Real.arcsin (Real.sin (toRadians center.lat)))) := by
  have h0 : max 0 radiusKm / EARTH_RADIUS_KM = 0 := by
    rw [max_eq_left hr]
    simp [EARTH_RADIUS_KM]
  have hs2 : Real.sin (toRadians center.lat) * Real.sin (toRadians center.lat) ≤ 1 := by
    have h := Real.sin_sq_le_one (toRadians center.lat)
    rwa [pow_two] at h
  simp only [circleVertex]
  rw [h0, Real.sin_zero, Real.cos_zero]
  simp only [mul_zero, zero_mul, mul_one, add_zero]
  rw [max_eq_right (Real.neg_one_le_sin _), min_eq_right (Real.sin_le_one _),
    Real.sin_arcsin (Real.neg_one_le_sin _) (Real.sin_le_one _),
    atan2_zero_of_nonneg (by linarith), add_zero, toDegrees_toRadians]

lemma circleVertex_last (center : MapLocation) (radiusKm : ℝ) :
    circleVertex center radiusKm 128 128 = circleVertex center radiusKm 128 0 := by
  simp only [circleVertex]
  norm_num [Real.sin_two_pi, Real.cos_two_pi, Real.sin_zero, Real.cos_zero]

/-- C9 counterexample: the claim quantifies over every center, but for the
out-of-range latitude 100° the zero-radius polygon's vertices do not
coincide with the center (the asin folds the latitude back to 80°). -/
theorem claim_C9_counterexample :
    ¬ (∀ (center : MapLocation) (radiusKm : ℝ), radiusKm ≤ 0 →
      ∀ p ∈ createCirclePolygon center radiusKm 128, p = (center.lng, center.lat)) := by
  intro h
  have hmem : circleVertex ⟨0, 100⟩ 0 128 0 ∈ createCirclePolygon ⟨0, 100⟩ 0 128 :=
    List.mem_map_of_mem _ (List.mem_range.mpr (by norm_num))
  have heq := h ⟨0, 100⟩ 0 le_rfl _ hmem
  rw [circleVertex_of_nonpos _ le_rfl 128 0] at heq
  have h2 : toDegrees (Real.arcsin (Real.sin (toRadians (100 : ℝ)))) = 100 :=
    congrArg Prod.snd heq
  have h100 : toRadians (100 : ℝ) = π - toRadians 80 := by
    unfold toRadians
    ring
  rw [h100, Real.sin_pi_sub,
    Real.arcsin_sin (toRadians_bounds (by norm_num : |(80 : ℝ)| ≤ 90)).1
      (toRadians_bounds (by norm_num : |(80 : ℝ)| ≤ 90)).2,
    toDegrees_toRadians] at h2
  norm_num at h2

/-- C9 (amended: centers restricted to valid latitudes, |lat| ≤ 90°, for
the degenerate-radius clause): `createCirclePolygon` with 128 steps emits
129 vertices, the first emitted vertex equals the last, and for
non-positive radius every vertex equals the center coordinate. -/
theorem claim_C9 (center : MapLocation) (radiusKm : ℝ) :
    (createCirclePolygon center radiusKm 128).length = 129 ∧
    (createCirclePolygon center radiusKm 128)[0]? =
      (createCirclePolygon center radiusKm 128)[128]? ∧
    (|center.lat| ≤ 90 → radiusKm ≤ 0 →
      ∀ p ∈ createCirclePolygon center radiusKm 128, p = (center.lng, center.lat)) := by
  refine ⟨?_, ?_, ?_⟩
  · simp [createCirclePolygon]
  · unfold createCirclePolygon
    rw [List.getElem?_map, List.getElem?_map, List.getElem?_range (by norm_num),
      List.getElem?_range (by norm_num)]
    exact congrArg some (circleVertex_last center radiusKm).symm
  · intro hlat hr p hp
    obtain ⟨i, -, rfl⟩ := List.mem_map.mp hp
    rw [circleVertex_of_nonpos center hr 128 i,
      Real.arcsin_sin (toRadians_bounds hlat).1 (toRadians_bounds hlat).2,
      toDegrees_toRadians]

/-- Witness for C9's degenerate-radius clause at center (10°E, 45°N). -/
theorem claim_C9_witness :
    circleVertex ⟨10, 45⟩ 0 128 0 = ((10 : ℝ), (45 : ℝ)) :=
  (claim_C9 ⟨10, 45⟩ 0).2.2 (show |(45 : ℝ)| ≤ 90 by norm_num) le_rfl _
    (List.mem_map_of_mem _ (List.mem_range.mpr (by norm_num)))

end Spaceapp

end
